import Mathlib

/-!
Verification of the ephemeral Java compile-and-execute pipeline in `main.py`
(`run_java_code` and its helper functions).  The Python source is shallowly
embedded: the regex-based source analyzers are translated character by
character from the `re` patterns in the source, and the stateful pipeline is
embedded as a pure function over an explicit environment (`Env`) describing
the outcome of every external effect (tool lookup, compiler subprocess,
`javap` introspection, the launched program, and workspace deletion).  The
pipeline additionally returns an event trace recording the observable
side effects (file written, subprocesses spawned/killed, workspace removal),
so that claims about "no execution attempted" or "cleanup always runs" are
statable.
-/

namespace JavaRunner

/-! ### Character classes of the Python `re` patterns (ASCII fragment).
`\w` is a letter, digit or underscore; `\s` is whitespace. -/

def isWordChar (c : Char) : Bool := c.isAlpha || c.isDigit || c = '_'

def isSpaceChar (c : Char) : Bool :=
  c = ' ' || c = '\t' || c = '\n' || c = '\r' || c = '\x0b' || c = '\x0c'

/-- Match a literal character sequence at the head of the input, returning the
remainder on success. -/
def stripLit : List Char → List Char → Option (List Char)
  | [], cs => some cs
  | _ :: _, [] => none
  | l :: ls, c :: cs => if c = l then stripLit ls cs else none

/-- Greedy `p+`: take a nonempty maximal run of characters satisfying `p`,
returning the run and the remainder. -/
def span1 (p : Char → Bool) (cs : List Char) : Option (List Char × List Char) :=
  let t := cs.takeWhile p
  if t.isEmpty then none else some (t, cs.dropWhile p)

/-! ### `extract_public_type`
Embeds the Python regex
`public\s+(?:\w+\s+)*(class|enum|record|interface)\s+([A-Za-z_]\w*)`
used by `extract_public_type` in `main.py`.  `re.search` semantics: leftmost
starting position wins; the greedy starred group `(?:\w+\s+)*` tries more
repetitions before fewer. -/

/-- Match `[A-Za-z_]\w*` (greedy) at the head of the input. -/
def matchIdent : List Char → Option String
  | [] => none
  | c :: cs =>
    if c.isAlpha || c = '_' then some (String.mk (c :: cs.takeWhile isWordChar))
    else none

/-- Match one alternative `kw` of the keyword alternation followed by
`\s+([A-Za-z_]\w*)`, returning (keyword, identifier). -/
def matchKwOne (kw : String) (cs : List Char) : Option (String × String) :=
  match stripLit kw.toList cs with
  | none => none
  | some r1 =>
    match span1 isSpaceChar r1 with
    | none => none
    | some (_, r2) => (matchIdent r2).map fun n => (kw, n)

/-- Match `(class|enum|record|interface)\s+([A-Za-z_]\w*)` at the head of the
input, trying the alternatives in the order of the Python pattern. -/
def matchKeywordAt (cs : List Char) : Option (String × String) :=
  match matchKwOne "class" cs with
  | some r => some r
  | none =>
    match matchKwOne "enum" cs with
    | some r => some r
    | none =>
      match matchKwOne "record" cs with
      | some r => some r
      | none => matchKwOne "interface" cs

/-- Match `(?:\w+\s+)*(class|enum|record|interface)\s+([A-Za-z_]\w*)` at the
head of the input.  The starred group is greedy: at each position the matcher
first tries to consume one more `\w+\s+` repetition and only on failure falls
back to matching the keyword alternation here.  `fuel` bounds the recursion;
each repetition consumes at least two characters, so `cs.length` suffices. -/
def matchKindName : Nat → List Char → Option (String × String)
  | 0, _ => none
  | fuel + 1, cs =>
    let deeper : Option (String × String) :=
      match span1 isWordChar cs with
      | none => none
      | some (_, r1) =>
        match span1 isSpaceChar r1 with
        | none => none
        | some (_, r2) => matchKindName fuel r2
    match deeper with
    | some r => some r
    | none => matchKeywordAt cs

/-- Match the full `extract_public_type` pattern anchored at the head of the
input. -/
def matchPublicAt (cs : List Char) : Option (String × String) :=
  match stripLit "public".toList cs with
  | none => none
  | some r1 =>
    match span1 isSpaceChar r1 with
    | none => none
    | some (_, r2) => matchKindName (r2.length + 1) r2

/-- `re.search` scan: try the pattern at every start position, left to
right. -/
def searchPublic : List Char → Option (String × String)
  | [] => none
  | c :: cs =>
    match matchPublicAt (c :: cs) with
    | some r => some r
    | none => searchPublic cs

/-- Embedding of `extract_public_type` from `main.py`: returns
(kind, name) of the first textual occurrence of a public type declaration,
or (none, none). -/
def extract_public_type (code : String) : Option String × Option String :=
  match searchPublic code.toList with
  | some (k, n) => (some k, some n)
  | none => (none, none)

/-! ### `extract_package_name`
Embeds `re.search(r'^\s*package\s+([\w\.]+)\s*;', code, re.MULTILINE)`:
the anchor `^` matches at the start of the text or right after a newline. -/

/-- Match `\s*package\s+([\w\.]+)\s*;` at the head of the input (which must be
a line-start position). -/
def matchPackageAt (cs : List Char) : Option String :=
  let r0 := cs.dropWhile isSpaceChar
  match stripLit "package".toList r0 with
  | none => none
  | some r1 =>
    match span1 isSpaceChar r1 with
    | none => none
    | some (_, r2) =>
      match span1 (fun c => isWordChar c || c = '.') r2 with
      | none => none
      | some (pkg, r3) =>
        match r3.dropWhile isSpaceChar with
        | ';' :: _ => some (String.mk pkg)
        | _ => none

/-- Scan left to right; the boolean records whether the current position is a
line start (position 0 or just after a newline), the only positions where the
anchored pattern can match. -/
def searchPackage : Bool → List Char → Option String
  | _, [] => none
  | atStart, c :: cs =>
    match (if atStart then matchPackageAt (c :: cs) else none) with
    | some p => some p
    | none => searchPackage (c = '\n') cs

/-- Embedding of `extract_package_name` from `main.py`. -/
def extract_package_name (code : String) : Option String :=
  searchPackage true code.toList

/-! ### `code_mentions_main`
Embeds
`public\s+static\s+void\s+main\s*\(\s*String(?:\s*\[\s*\]|\s*\.\.\.)\s*\w*\s*\)`. -/

/-- Match the parameter-shape alternation `(?:\s*\[\s*\]|\s*\.\.\.)`. -/
def arrayOrVarargs (cs : List Char) : Option (List Char) :=
  (do
    let r := cs.dropWhile isSpaceChar
    let r ← stripLit "[".toList r
    let r := r.dropWhile isSpaceChar
    stripLit "]".toList r) <|>
  stripLit "...".toList (cs.dropWhile isSpaceChar)

/-- Match the full entry-signature pattern anchored at the head of the
input. -/
def matchMainSigAt (cs : List Char) : Bool :=
  (do
    let r ← stripLit "public".toList cs
    let (_, r) ← span1 isSpaceChar r
    let r ← stripLit "static".toList r
    let (_, r) ← span1 isSpaceChar r
    let r ← stripLit "void".toList r
    let (_, r) ← span1 isSpaceChar r
    let r ← stripLit "main".toList r
    let r := r.dropWhile isSpaceChar
    let r ← stripLit "(".toList r
    let r := r.dropWhile isSpaceChar
    let r ← stripLit "String".toList r
    let r ← arrayOrVarargs r
    let r := r.dropWhile isSpaceChar
    let r := r.dropWhile isWordChar
    let r := r.dropWhile isSpaceChar
    let _ ← stripLit ")".toList r
    pure ()).isSome

def searchMainSig : List Char → Bool
  | [] => false
  | c :: cs => matchMainSigAt (c :: cs) || searchMainSig cs

/-- Embedding of `code_mentions_main` from `main.py`. -/
def code_mentions_main (code : String) : Bool :=
  searchMainSig code.toList

/-! ### Substring containment (Python's `in` operator on strings) -/

def containsSubList (needle : List Char) : List Char → Bool
  | [] => needle.isEmpty
  | c :: cs => needle.isPrefixOf (c :: cs) || containsSubList needle cs

/-- `containsSub hay needle` embeds Python's `needle in hay`. -/
def containsSub (hay needle : String) : Bool :=
  containsSubList needle.toList hay.toList

/-! ### Model of the external world consumed by the pipeline.

Everything the Python code observes through libraries (`shutil.which`,
`subprocess.run`, `Path.rglob`, `tempfile`, `shutil.rmtree`) is supplied by an
`Env` value; the pipeline itself is the pure function of the environment that
`run_java_code` defines. -/

/-- Behavior a child process would exhibit if spawned: how long it runs and
what it returns. -/
structure SubprocSpec where
  duration : Nat
  exitCode : Int
  stdout : String
  stderr : String
deriving DecidableEq

inductive SubprocResult where
  | completed (exitCode : Int) (stdout stderr : String)
  | timedOut
deriving DecidableEq

/-- Model of `subprocess.run(..., capture_output=True, timeout=t)` from the
Python library documentation: if the child runs longer than the timeout it is
killed and waited for, and `TimeoutExpired` is raised; otherwise the captured
streams and exit status are returned. -/
def subprocessRun (p : SubprocSpec) (timeLimit : Nat) : SubprocResult :=
  if p.duration > timeLimit then .timedOut
  else .completed p.exitCode p.stdout p.stderr

/-- Outcome of one `javap -public -classpath . <binaryName>` invocation:
either a completed process (return code and stdout), or any exception
(including its own 5 second timeout), which `find_main_classes_with_javap`
catches and ignores. -/
inductive JavapResult where
  | completedJ (returncode : Int) (stdout : String)
  | raisesJ

/-- Environment of one request: results of the three `shutil.which` lookups,
the compiler process, the `.class` files `Path(work_dir).rglob("*.class")`
enumerates (as paths relative to the workspace, in the filesystem-dependent
order `rglob` happens to produce), the `javap` oracle, the behavior of
`java -Xmx256m -cp . <main> ` as a function of the main class and the piped
stdin, and whether workspace deletion would fail. -/
structure Env where
  javacPath : Option String
  javaPath : Option String
  javapPath : Option String
  compileProc : SubprocSpec
  classFiles : List String
  javap : String → JavapResult
  runProc : String → String → SubprocSpec
  rmtreeFails : Bool

/-- Characters of the last path component (`os.sep` is modelled as `/`). -/
def fileNameChars : List Char → List Char → List Char
  | [], acc => acc.reverse
  | c :: cs, acc => if c = '/' then fileNameChars cs [] else fileNameChars cs (c :: acc)

/-- `class_file.name`: the last path component of the relative path. -/
def fileNameOf (rel : String) : String := String.mk (fileNameChars rel.toList [])

/-- `str(class_file.relative_to(work_dir)).replace(os.sep, ".")[:-6]`: with a
single-character separator, the replacement maps each `/` to `.`, and `[:-6]`
drops the trailing 6 characters (the `.class` extension). -/
def binaryNameOf (rel : String) : String :=
  let dotted := rel.toList.map fun c => if c = '/' then '.' else c
  String.mk (dotted.take (dotted.length - 6))

def mainSigArray : String := "public static void main(java.lang.String[])"
def mainSigVarargs : String := "public static void main(java.lang.String...)"

/-- The acceptance test applied to each `javap` invocation:
`p.returncode == 0 and (sig[] in p.stdout or sig... in p.stdout)`; an
exception from the invocation is never accepted (`except Exception: pass`). -/
def javapKeeps : JavapResult → Bool
  | .completedJ rc out =>
    rc == 0 && (containsSub out mainSigArray || containsSub out mainSigVarargs)
  | .raisesJ => false

/-- Embedding of `find_main_classes_with_javap` from `main.py`: walk the
`rglob` enumeration in order, skip file names containing `$`, derive the
binary name from the relative path, and keep those whose `javap -public`
output shows a public static main taking `String[]` or `String...`. -/
def find_main_classes_with_javap (classFiles : List String)
    (javap : String → JavapResult) : List String :=
  classFiles.filterMap fun rel =>
    if (fileNameOf rel).toList.contains '$' then none
    else
      let binary_name := binaryNameOf rel
      if javapKeeps (javap binary_name) then some binary_name else none

/-! ### Responses, exceptions and the observable event trace -/

structure HTTPException where
  status_code : Nat
  detail : String
deriving DecidableEq, Repr

/-- The two dict shapes `run_java_code` can return: the compile-failure dict
`{ok: False, stage: "compile", stdout, stderr, output, exit_code}` and the run
dict `{ok: True, stage: "run", stdout, stderr, output, exit_code,
main_class}`. -/
inductive ApiResponse where
  | compileFailure (stdout stderr output : String) (exit_code : Int)
  | runResult (stdout stderr output : String) (exit_code : Int) (main_class : String)
deriving DecidableEq, Repr

/-- The `ok` field of the returned dict. -/
def ApiResponse.ok : ApiResponse → Bool
  | .compileFailure .. => false
  | .runResult .. => true

/-- The `stage` field of the returned dict. -/
def ApiResponse.stage : ApiResponse → String
  | .compileFailure .. => "compile"
  | .runResult .. => "run"

/-- Exceptions that can escape the `try` block of `run_java_code`:
`subprocess.TimeoutExpired` from either `subprocess.run` call, or an
`HTTPException` raised inside the block. -/
inductive PyExc where
  | timeoutExpired
  | httpExc (e : HTTPException)
deriving DecidableEq

/-- Observable side effects of one request, in order of occurrence.  The
`logged` constructor exists so that the absence of any logging is a statable
property; the handler contains no logging call, so no code path emits it. -/
inductive Event where
  | wroteSource (filename : String)
  | spawnedCompile (timeLimit : Nat)
  | exitedCompile
  | killedCompile
  | introspected (binaryName : String)
  | spawnedRun (mainClass : String) (timeLimit : Nat)
  | exitedRun
  | killedRun
  | rmtreeWorkDir
  | logged (msg : String)
deriving DecidableEq, Repr

def Event.isSpawnedRun : Event → Bool
  | .spawnedRun .. => true
  | _ => false

def Event.isIntrospected : Event → Bool
  | .introspected _ => true
  | _ => false

def Event.isLogged : Event → Bool
  | .logged _ => true
  | _ => false

def jdkNotFoundMsg : String := "Java JDK not found. Ensure JDK is installed and in PATH."
def noMainMsg : String := "No main(String[]) method found to run."
def timeoutMsg : String := "Code execution timed out."

/-- The `except` chain of `run_java_code`: `except subprocess.TimeoutExpired`
raises `HTTPException(400, "Code execution timed out.")`; the following
`except Exception as e` raises `HTTPException(500, str(e))`.  Because
FastAPI's `HTTPException` is a subclass of `Exception`, an `HTTPException`
raised inside the `try` block is caught by the generic clause and re-wrapped
as a 500 whose detail is Starlette's string form `"<status_code>: <detail>"`. -/
def handleExc : PyExc → HTTPException
  | .timeoutExpired => ⟨400, timeoutMsg⟩
  | .httpExc e => ⟨500, toString e.status_code ++ ": " ++ e.detail⟩

/-- Python's `x or y` on strings: `x` when nonempty, else `y`. -/
def pyOr (s t : String) : String := if s = "" then t else s

/-- `f"{package_name}.{public_name}" if package_name else public_name`. -/
def qualify : Option String → String → String
  | some p, n => p ++ "." ++ n
  | none, n => n

/-- The events emitted while `find_main_classes_with_javap` runs: one `javap`
subprocess per non-nested class artifact, in enumeration order. -/
def introspectionEvents (classFiles : List String) : List Event :=
  classFiles.filterMap fun rel =>
    if (fileNameOf rel).toList.contains '$' then none
    else some (.introspected (binaryNameOf rel))

/-- Candidate selection of `run_java_code` (lines 113-128): `mains[0]` when
introspection found anything, otherwise the static-analysis fallbacks (both
fallback branches construct the same qualified name). -/
def resolveCandidate (code : String) (public_name : Option String)
    (mains : List String) : Option String :=
  match mains with
  | m :: _ => some m
  | [] =>
    let package_name := extract_package_name code
    match public_name with
    | some n =>
      if code_mentions_main code then some (qualify package_name n)
      else some (qualify package_name n)
    | none => none

/-- Introspection step: `mains = find_main_classes_with_javap(...)` when
`javap_path` is truthy, else `[]`; paired with the events it emits. -/
def resolveStep (code : String) (env : Env) (public_name : Option String) :
    Option String × List Event :=
  let mains :=
    if env.javapPath.isSome then
      find_main_classes_with_javap env.classFiles env.javap
    else []
  (resolveCandidate code public_name mains,
   if env.javapPath.isSome then introspectionEvents env.classFiles else [])

/-- Execution step: `subprocess.run([java, "-Xmx256m", "-cp", ".", candidate],
input=request.input_data or "", timeout=10, ...)` and the construction of the
run dict, whose `output` field is `stdout if stdout else stderr`. -/
def runStep (input_data : String) (env : Env) (cand : String) :
    Except PyExc ApiResponse × List Event :=
  match subprocessRun (env.runProc cand (pyOr input_data "")) 10 with
  | .timedOut => (.error .timeoutExpired, [.spawnedRun cand 10, .killedRun])
  | .completed rrc rout rerr =>
    (.ok (.runResult rout rerr (if rout = "" then rerr else rout) rrc cand),
     [.spawnedRun cand 10, .exitedRun])

/-- The body of the `try` block of `run_java_code`: write the source file
named after the public type (default `Main`), compile with `timeout=20`,
short-circuit on a nonzero compiler exit, resolve the entry point, reject a
missing/empty candidate (`if not candidate`) with the 400 no-main
`HTTPException`, and run the candidate with `timeout=10`. -/
def run_java_body (code input_data : String) (env : Env) :
    Except PyExc ApiResponse × List Event :=
  let public_name := (extract_public_type code).2
  let filename := (public_name.getD "Main") ++ ".java"
  match subprocessRun env.compileProc 20 with
  | .timedOut =>
    (.error .timeoutExpired, [.wroteSource filename, .spawnedCompile 20, .killedCompile])
  | .completed rc out err =>
    if rc ≠ 0 then
      (.ok (.compileFailure out err err rc),
       [.wroteSource filename, .spawnedCompile 20, .exitedCompile])
    else
      let rs := resolveStep code env public_name
      match rs.1 with
      | none =>
        (.error (.httpExc ⟨400, noMainMsg⟩),
         [.wroteSource filename, .spawnedCompile 20, .exitedCompile] ++ rs.2)
      | some cand =>
        if cand = "" then
          (.error (.httpExc ⟨400, noMainMsg⟩),
           [.wroteSource filename, .spawnedCompile 20, .exitedCompile] ++ rs.2)
        else
          let rr := runStep input_data env cand
          (rr.1, [.wroteSource filename, .spawnedCompile 20, .exitedCompile] ++ rs.2 ++ rr.2)

/-- Model of `shutil.rmtree(work_dir, ignore_errors=True)` in the `finally`
block, from the Python library documentation: with `ignore_errors` set,
errors during deletion are ignored — nothing is raised, and the handler
contains no logging call, so nothing is logged either.  The emitted event
records that the deletion call ran. -/
def shutilRmtree (_fails : Bool) : List Event := [Event.rmtreeWorkDir]

/-- Embedding of the endpoint `run_java_code` from `main.py` over an explicit
environment.  Returns the FastAPI outcome (an `HTTPException` or a response
dict) together with the trace of observable side effects.  The missing-JDK
check happens before the workspace is created, so that path emits no
events. -/
def run_java_code (code input_data : String) (env : Env) :
    Except HTTPException ApiResponse × List Event :=
  if env.javacPath.isNone || env.javaPath.isNone then
    (.error ⟨500, jdkNotFoundMsg⟩, [])
  else
    let (r, evs) := run_java_body code input_data env
    (match r with
     | .ok resp => .ok resp
     | .error e => .error (handleExc e),
     evs ++ shutilRmtree env.rmtreeFails)

/-! ### Claim-side definitions -/

/-- Strict lexicographic comparison of character sequences. -/
def lexLt : List Char → List Char → Bool
  | [], [] => false
  | [], _ :: _ => true
  | _ :: _, [] => false
  | a :: as, b :: bs => if a < b then true else if b < a then false else lexLt as bs

/-- Insertion sort by the lexicographic order on path strings. -/
def insertLex (s : String) : List String → List String
  | [] => [s]
  | t :: ts => if lexLt t.toList s.toList then t :: insertLex s ts else s :: t :: ts

def lexSort : List String → List String
  | [] => []
  | s :: ss => insertLex s (lexSort ss)

/-- The tie-break rule asserted by claim C1: the candidate that is first when
the workspace walk enumerates class artifacts in lexicographic path order. -/
def claimedLexChoice (env : Env) : Option String :=
  (find_main_classes_with_javap (lexSort env.classFiles) env.javap).head?

/-- HTTP status of an outcome, when the outcome is an error. -/
def resultStatus : Except HTTPException ApiResponse → Option Nat
  | .error e => some e.status_code
  | .ok _ => none

/-! ### Concrete inputs used by witnesses and counterexamples -/

/-- The hello-world request of the spec's example. -/
def codeMain : String :=
  "public class Main \x7b public static void main(String[] args) \x7b\x7d \x7d"

/-- A source text with a public class but no main method. -/
def codeFoo : String := "public class Foo \x7b\x7d"

/-- A source text with no public type at all (it still compiles). -/
def codeNoPub : String := "class A \x7b\x7d"

/-- A packaged source text with a public class and a textual main
signature. -/
def codePkg : String :=
  "package com.demo;\npublic class App \x7b public static void main(String[] a) \x7b\x7d \x7d"

/-- A baseline environment: full toolchain, instant compile success, one
compiled artifact whose `javap` output shows a launchable main, a program
that prints `hi` and exits 0. -/
def envBase : Env where
  javacPath := some "/usr/bin/javac"
  javaPath := some "/usr/bin/java"
  javapPath := some "/usr/bin/javap"
  compileProc := ⟨1, 0, "", ""⟩
  classFiles := ["Main.class"]
  javap := fun _ => .completedJ 0 "public static void main(java.lang.String[]);"
  runProc := fun _ _ => ⟨1, 0, "hi\n", ""⟩
  rmtreeFails := false

/-- Environment whose `rglob` enumeration produces the class files out of
lexicographic order — an order the filesystem is free to produce — with both
artifacts exposing a public main. -/
def envUnsorted : Env := { envBase with
  classFiles := ["b.class", "a.class"]
  runProc := fun _ _ => ⟨1, 0, "", ""⟩ }

/-- Environment with a failing compiler (syntax error). -/
def envCompileErr : Env := { envBase with
  compileProc := ⟨1, 1, "", "Main.java:1: error: ';' expected"⟩ }

/-- Environment where `javap` is not on PATH; everything else works. -/
def envNoJavap : Env := { envBase with javapPath := none }

/-- Environment where compilation succeeds but the introspection output shows
no main method (and the source has no public type). -/
def envNoEntry : Env := { envBase with
  classFiles := ["A.class"]
  javap := fun _ => .completedJ 0 "class A" }

/-- Environment whose workspace deletion fails (deletion errors are ignored
by `rmtree(ignore_errors=True)`). -/
def envRmFail : Env := { envBase with javapPath := none, rmtreeFails := true }

/-- Environment whose launched program exceeds the 10 second execution
timeout. -/
def envRunSlow : Env := { envBase with
  javapPath := none
  runProc := fun _ _ => ⟨11, 0, "", ""⟩ }

/-- Environment whose program exits nonzero with diagnostics on stderr. -/
def envRunFails : Env := { envBase with
  javapPath := none
  runProc := fun _ _ => ⟨1, 1, "", "Exception in thread main"⟩ }

/-! ### Unfolding lemmas for the pipeline branches -/

theorem run_java_code_eq (code input_data : String) (env : Env)
    (hc : env.javacPath ≠ none) (hj : env.javaPath ≠ none) :
    run_java_code code input_data env =
      ((match (run_java_body code input_data env).1 with
        | .ok resp => .ok resp
        | .error e => .error (handleExc e)),
       (run_java_body code input_data env).2 ++ shutilRmtree env.rmtreeFails) := by
  unfold run_java_code
  rw [if_neg]
  simp [Option.isNone_iff_eq_none, hc, hj]

/-- Shorthand for the file name the pipeline writes for a given source
text. -/
def writtenFileName (code : String) : String :=
  ((extract_public_type code).2).getD "Main" ++ ".java"

theorem run_java_body_compile_timeout (code input_data : String) (env : Env)
    (hd : env.compileProc.duration > 20) :
    run_java_body code input_data env =
      (.error .timeoutExpired,
       [.wroteSource (writtenFileName code), .spawnedCompile 20, .killedCompile]) := by
  simp [run_java_body, subprocessRun, hd, writtenFileName]

theorem run_java_body_compile_fail (code input_data : String) (env : Env)
    (hd : env.compileProc.duration ≤ 20) (hrc : env.compileProc.exitCode ≠ 0) :
    run_java_body code input_data env =
      (.ok (.compileFailure env.compileProc.stdout env.compileProc.stderr
              env.compileProc.stderr env.compileProc.exitCode),
       [.wroteSource (writtenFileName code), .spawnedCompile 20, .exitedCompile]) := by
  have hgt : ¬ env.compileProc.duration > 20 := by omega
  simp [run_java_body, subprocessRun, hgt, hrc, writtenFileName]

theorem run_java_body_no_candidate (code input_data : String) (env : Env)
    (hd : env.compileProc.duration ≤ 20) (hrc : env.compileProc.exitCode = 0)
    (hcand : (resolveStep code env (extract_public_type code).2).1 = none) :
    run_java_body code input_data env =
      (.error (.httpExc ⟨400, noMainMsg⟩),
       [.wroteSource (writtenFileName code), .spawnedCompile 20, .exitedCompile] ++
         (resolveStep code env (extract_public_type code).2).2) := by
  have hgt : ¬ env.compileProc.duration > 20 := by omega
  simp [run_java_body, subprocessRun, hgt, hrc, hcand, writtenFileName]

theorem run_java_body_empty_candidate (code input_data : String) (env : Env)
    (hd : env.compileProc.duration ≤ 20) (hrc : env.compileProc.exitCode = 0)
    (hcand : (resolveStep code env (extract_public_type code).2).1 = some "") :
    run_java_body code input_data env =
      (.error (.httpExc ⟨400, noMainMsg⟩),
       [.wroteSource (writtenFileName code), .spawnedCompile 20, .exitedCompile] ++
         (resolveStep code env (extract_public_type code).2).2) := by
  have hgt : ¬ env.compileProc.duration > 20 := by omega
  simp [run_java_body, subprocessRun, hgt, hrc, hcand, writtenFileName]

theorem run_java_body_with_candidate (code input_data : String) (env : Env)
    (cand : String)
    (hd : env.compileProc.duration ≤ 20) (hrc : env.compileProc.exitCode = 0)
    (hcand : (resolveStep code env (extract_public_type code).2).1 = some cand)
    (hne : cand ≠ "") :
    run_java_body code input_data env =
      ((runStep input_data env cand).1,
       [.wroteSource (writtenFileName code), .spawnedCompile 20, .exitedCompile] ++
         (resolveStep code env (extract_public_type code).2).2 ++
         (runStep input_data env cand).2) := by
  have hgt : ¬ env.compileProc.duration > 20 := by omega
  simp [run_java_body, subprocessRun, hgt, hrc, hcand, hne, writtenFileName]

theorem runStep_timeout (input_data : String) (env : Env) (cand : String)
    (hd : (env.runProc cand (pyOr input_data "")).duration > 10) :
    runStep input_data env cand =
      (.error .timeoutExpired, [.spawnedRun cand 10, .killedRun]) := by
  simp [runStep, subprocessRun, hd]

theorem runStep_completed (input_data : String) (env : Env) (cand : String)
    (hd : (env.runProc cand (pyOr input_data "")).duration ≤ 10) :
    runStep input_data env cand =
      (.ok (.runResult (env.runProc cand (pyOr input_data "")).stdout
              (env.runProc cand (pyOr input_data "")).stderr
              (if (env.runProc cand (pyOr input_data "")).stdout = "" then
                 (env.runProc cand (pyOr input_data "")).stderr
               else (env.runProc cand (pyOr input_data "")).stdout)
              (env.runProc cand (pyOr input_data "")).exitCode cand),
       [.spawnedRun cand 10, .exitedRun]) := by
  have hgt : ¬ (env.runProc cand (pyOr input_data "")).duration > 10 := by omega
  simp [runStep, subprocessRun, hgt]

/-- When introspection is unavailable or found nothing, candidate resolution
reduces to the static-analysis fallback. -/
theorem resolveStep_fallback (code : String) (env : Env) (pn : Option String)
    (hm : env.javapPath = none ∨
          find_main_classes_with_javap env.classFiles env.javap = []) :
    (resolveStep code env pn).1 = resolveCandidate code pn [] := by
  unfold resolveStep
  rcases hm with h | h
  · simp [h]
  · cases hs : env.javapPath.isSome <;> simp [hs, h]

theorem resolveCandidate_public (code : String) (n : String) :
    resolveCandidate code (some n) [] =
      some (qualify (extract_package_name code) n) := by
  simp [resolveCandidate]

/-- When introspection produced candidates, `mains[0]` is selected. -/
theorem resolveStep_mains (code : String) (env : Env) (pn : Option String)
    (m : String) (ms : List String)
    (hjp : env.javapPath.isSome)
    (hm : find_main_classes_with_javap env.classFiles env.javap = m :: ms) :
    (resolveStep code env pn).1 = some m := by
  unfold resolveStep
  simp [hjp, hm, resolveCandidate]

/-! ### The name captured by `extract_public_type` is never empty -/

theorem matchIdent_ne_empty : ∀ {cs : List Char} {n : String},
    matchIdent cs = some n → n ≠ ""
  | [], n, h => by simp [matchIdent] at h
  | c :: cs, n, h => by
    by_cases hc : (c.isAlpha || c = '_') = true
    · rw [matchIdent, if_pos hc] at h
      cases h
      intro he
      exact absurd (congrArg String.data he) (by simp)
    · rw [matchIdent, if_neg hc] at h
      cases h

theorem matchKwOne_ne_empty {kw : String} {cs : List Char} {k n : String}
    (h : matchKwOne kw cs = some (k, n)) : n ≠ "" := by
  unfold matchKwOne at h
  split at h
  · cases h
  · split at h
    · cases h
    · rcases hmi : matchIdent _ with _ | m
      · rw [hmi] at h; cases h
      · rw [hmi] at h
        simp only [Option.map_some'] at h
        cases h
        exact matchIdent_ne_empty hmi

theorem matchKeywordAt_ne_empty {cs : List Char} {k n : String}
    (h : matchKeywordAt cs = some (k, n)) : n ≠ "" := by
  unfold matchKeywordAt at h
  split at h
  · cases h; exact matchKwOne_ne_empty ‹_›
  · split at h
    · cases h; exact matchKwOne_ne_empty ‹_›
    · split at h
      · cases h; exact matchKwOne_ne_empty ‹_›
      · exact matchKwOne_ne_empty h

theorem matchKindName_ne_empty : ∀ {fuel : Nat} {cs : List Char} {k n : String},
    matchKindName fuel cs = some (k, n) → n ≠ ""
  | 0, cs, k, n, h => by simp [matchKindName] at h
  | fuel + 1, cs, k, n, h => by
    rw [matchKindName] at h
    split at h
    · rename_i heq
      split at heq
      · cases heq
      · split at heq
        · cases heq
        · cases h
          exact matchKindName_ne_empty heq
    · exact matchKeywordAt_ne_empty h

theorem matchPublicAt_ne_empty {cs : List Char} {k n : String}
    (h : matchPublicAt cs = some (k, n)) : n ≠ "" := by
  unfold matchPublicAt at h
  split at h
  · cases h
  · split at h
    · cases h
    · exact matchKindName_ne_empty h

theorem searchPublic_ne_empty : ∀ {cs : List Char} {k n : String},
    searchPublic cs = some (k, n) → n ≠ ""
  | [], _, _, h => by simp [searchPublic] at h
  | c :: cs, k, n, h => by
    rw [searchPublic] at h
    split at h
    · cases h; exact matchPublicAt_ne_empty ‹_›
    · exact searchPublic_ne_empty h

theorem extract_name_ne_empty {code : String} {n : String}
    (h : (extract_public_type code).2 = some n) : n ≠ "" := by
  unfold extract_public_type at h
  split at h
  · rename_i k m heq
    simp only at h
    cases h
    exact searchPublic_ne_empty heq
  · cases h

theorem qualify_ne_empty {pkg : Option String} {n : String} (hn : n ≠ "") :
    qualify pkg n ≠ "" := by
  cases pkg with
  | none => exact hn
  | some p =>
    intro h
    have h2 : (p ++ "." ++ n).length = 0 := by rw [qualify] at h; rw [h]; rfl
    rw [String.length_append, String.length_append] at h2
    have h3 : ("." : String).length = 1 := rfl
    have h4 : n.length ≠ 0 := by
      intro hz
      apply hn
      obtain ⟨d⟩ := n
      cases d with
      | nil => rfl
      | cons a as => simp [String.length] at hz
    omega

theorem run_java_code_fst (code input_data : String) (env : Env)
    (hc : env.javacPath ≠ none) (hj : env.javaPath ≠ none) :
    (run_java_code code input_data env).1 =
      (match (run_java_body code input_data env).1 with
       | .ok resp => .ok resp
       | .error e => .error (handleExc e)) := by
  rw [run_java_code_eq code input_data env hc hj]

/-- No event emitted during entry-point resolution is a `spawnedRun` event:
introspection only runs `javap`, never the launcher. -/
theorem resolveStep_events_not_run (code : String) (env : Env) (pn : Option String) :
    (resolveStep code env pn).2.all (fun e => !e.isSpawnedRun) = true := by
  unfold resolveStep
  cases hs : env.javapPath.isSome
  · simp [hs]
  · simp only [hs, if_pos]
    unfold introspectionEvents
    rw [List.all_eq_true]
    intro e he
    rw [List.mem_filterMap] at he
    obtain ⟨rel, _, hf⟩ := he
    by_cases hdollar : ((fileNameOf rel).toList.contains '$') = true
    · rw [if_pos hdollar] at hf; cases hf
    · rw [if_neg hdollar] at hf
      injection hf with h
      subst h
      rfl

/-- Every exception escaping the `try` block is either a subprocess timeout
or the no-entry-point `HTTPException`. -/
theorem run_java_body_error_cases (code input_data : String) (env : Env)
    {e : PyExc} (h : (run_java_body code input_data env).1 = .error e) :
    e = .timeoutExpired ∨ e = .httpExc ⟨400, noMainMsg⟩ := by
  simp only [run_java_body] at h
  split at h
  · cases h; left; rfl
  · split at h
    · cases h
    · split at h
      · cases h; right; rfl
      · split at h
        · cases h; right; rfl
        · unfold runStep at h
          split at h
          · cases h; left; rfl
          · cases h

/-! ### The claims -/

/-- Claim C1, as stated, is false: the executed candidate is `mains[0]` in
the enumeration order `Path.rglob` happens to produce, which the filesystem
does not guarantee to be lexicographic.  In an environment whose walk yields
`b.class` before `a.class` (both launchable), the pipeline executes `b`,
while the claimed lexicographic-order tie-break selects `a`. -/
theorem introspection_lexicographic_refuted :
    (run_java_code "" "" envUnsorted).1 = .ok (.runResult "" "" "" 0 "b")
    ∧ claimedLexChoice envUnsorted = some "a"
    ∧ ("b" : String) ≠ "a" :=
  ⟨rfl, by decide, by decide⟩

/-- Claim C1 (amended): entry-point resolution tries bytecode introspection
first; every candidate kept comes from a listed `.class` artifact whose file
name contains no `$`, carries the binary name derived from the artifact's
relative path, and passed the `javap -public` main-signature test; and when
several candidates exist, the one executed is the first in the enumeration
order of the directory walk (which is filesystem-dependent, not guaranteed
lexicographic). -/
theorem introspection_first_in_enumeration
    (code input_data : String) (env : Env) (m : String) (ms : List String)
    (hc : env.javacPath ≠ none) (hj : env.javaPath ≠ none)
    (hjp : env.javapPath.isSome)
    (hd : env.compileProc.duration ≤ 20) (hrc : env.compileProc.exitCode = 0)
    (hm : find_main_classes_with_javap env.classFiles env.javap = m :: ms)
    (hne : m ≠ "") :
    Event.spawnedRun m 10 ∈ (run_java_code code input_data env).2
    ∧ ∀ b ∈ m :: ms, ∃ rel ∈ env.classFiles,
        (fileNameOf rel).toList.contains '$' = false ∧ b = binaryNameOf rel ∧
        javapKeeps (env.javap b) = true := by
  constructor
  · have hcand : (resolveStep code env (extract_public_type code).2).1 = some m :=
      resolveStep_mains code env _ m ms hjp hm
    rw [run_java_code_eq code input_data env hc hj,
        run_java_body_with_candidate code input_data env m hd hrc hcand hne]
    rcases Nat.lt_or_ge 10 ((env.runProc m (pyOr input_data "")).duration) with hgt | hle
    · rw [runStep_timeout input_data env m hgt]
      simp [shutilRmtree]
    · rw [runStep_completed input_data env m hle]
      simp [shutilRmtree]
  · intro b hb
    rw [← hm] at hb
    unfold find_main_classes_with_javap at hb
    rw [List.mem_filterMap] at hb
    obtain ⟨rel, hrel, hf⟩ := hb
    refine ⟨rel, hrel, ?_⟩
    by_cases hdollar : ((fileNameOf rel).toList.contains '$') = true
    · rw [if_pos hdollar] at hf; cases hf
    · rw [if_neg hdollar] at hf
      by_cases hk : javapKeeps (env.javap (binaryNameOf rel)) = true
      · rw [if_pos hk] at hf
        injection hf with hfb
        subst hfb
        exact ⟨Bool.eq_false_iff.mpr hdollar, rfl, hk⟩
      · rw [if_neg hk] at hf; cases hf

/-- Witness for the amended C1 at a concrete environment with two
candidates. -/
theorem introspection_first_in_enumeration_witness :
    Event.spawnedRun "b" 10 ∈ (run_java_code "" "" envUnsorted).2
    ∧ ∀ b ∈ ("b" :: ["a"] : List String), ∃ rel ∈ envUnsorted.classFiles,
        (fileNameOf rel).toList.contains '$' = false ∧ b = binaryNameOf rel ∧
        javapKeeps (envUnsorted.javap b) = true :=
  introspection_first_in_enumeration "" "" envUnsorted "b" ["a"]
    (by decide) (by decide) (by decide) (by decide) (by decide) (by decide) (by decide)

/-- Claim C2 (amended): whenever the workspace is created (the toolchain
check passed), its deletion runs on every outcome of the pipeline, and a
failure of the deletion never changes the outcome delivered to the caller
(`rmtree` is invoked with `ignore_errors=True`).  The claim's assertion that
the failure is logged is refuted separately. -/
theorem workspace_cleanup_always_runs (code input_data : String) (env : Env)
    (hc : env.javacPath ≠ none) (hj : env.javaPath ≠ none) :
    Event.rmtreeWorkDir ∈ (run_java_code code input_data env).2
    ∧ ∀ b : Bool, (run_java_code code input_data { env with rmtreeFails := b }).1 =
        (run_java_code code input_data env).1 := by
  constructor
  · rw [run_java_code_eq code input_data env hc hj]
    simp [shutilRmtree]
  · intro b
    rfl

/-- Witness for the amended C2: cleanup runs and the outcome is independent
of a deletion failure, at a concrete environment. -/
theorem workspace_cleanup_always_runs_witness :
    Event.rmtreeWorkDir ∈ (run_java_code codeMain "" envBase).2
    ∧ ∀ b : Bool, (run_java_code codeMain "" { envBase with rmtreeFails := b }).1 =
        (run_java_code codeMain "" envBase).1 :=
  workspace_cleanup_always_runs codeMain "" envBase (by decide) (by decide)

/-- Claim C2's "and logged" part is false: in an environment whose workspace
deletion fails, the deletion call still runs and nothing whatsoever is
logged — the handler contains no logging call and `ignore_errors=True`
discards the error silently. -/
theorem cleanup_failure_not_logged :
    envRmFail.rmtreeFails = true
    ∧ Event.rmtreeWorkDir ∈ (run_java_code codeMain "" envRmFail).2
    ∧ (run_java_code codeMain "" envRmFail).2.any Event.isLogged = false :=
  ⟨rfl, by decide, by decide⟩

/-- Claim C3: when compilation exits nonzero, the pipeline returns the
compile-failure dict whose `stderr` field is exactly the compiler's raw error
stream (and `output` repeats it), with `ok = false` and `stage = "compile"`,
and neither entry-point introspection nor any execution subprocess is ever
started. -/
theorem compile_failure_short_circuits (code input_data : String) (env : Env)
    (hc : env.javacPath ≠ none) (hj : env.javaPath ≠ none)
    (hd : env.compileProc.duration ≤ 20) (hrc : env.compileProc.exitCode ≠ 0) :
    (run_java_code code input_data env).1 =
      .ok (.compileFailure env.compileProc.stdout env.compileProc.stderr
             env.compileProc.stderr env.compileProc.exitCode)
    ∧ (ApiResponse.compileFailure env.compileProc.stdout env.compileProc.stderr
         env.compileProc.stderr env.compileProc.exitCode).ok = false
    ∧ (ApiResponse.compileFailure env.compileProc.stdout env.compileProc.stderr
         env.compileProc.stderr env.compileProc.exitCode).stage = "compile"
    ∧ (run_java_code code input_data env).2.all
        (fun e => !(e.isSpawnedRun || e.isIntrospected)) = true := by
  rw [run_java_code_eq code input_data env hc hj,
      run_java_body_compile_fail code input_data env hd hrc]
  refine ⟨rfl, rfl, rfl, ?_⟩
  simp [shutilRmtree, Event.isSpawnedRun, Event.isIntrospected]

/-- Witness for C3 at a concrete environment with a failing compiler. -/
theorem compile_failure_short_circuits_witness :
    (run_java_code codeMain "" envCompileErr).1 =
      .ok (.compileFailure "" "Main.java:1: error: ';' expected"
             "Main.java:1: error: ';' expected" 1)
    ∧ (ApiResponse.compileFailure "" "Main.java:1: error: ';' expected"
         "Main.java:1: error: ';' expected" 1).ok = false
    ∧ (ApiResponse.compileFailure "" "Main.java:1: error: ';' expected"
         "Main.java:1: error: ';' expected" 1).stage = "compile"
    ∧ (run_java_code codeMain "" envCompileErr).2.all
        (fun e => !(e.isSpawnedRun || e.isIntrospected)) = true :=
  compile_failure_short_circuits codeMain "" envCompileErr
    (by decide) (by decide) (by decide) (by decide)

/-- Claim C4: the written source file is named `T.java` when the analyzer's
first public type declaration is named `T`, and `Main.java` when no public
type is found — in which case compilation is still attempted. -/
theorem source_file_naming (code input_data : String) (env : Env) (T : String)
    (hc : env.javacPath ≠ none) (hj : env.javaPath ≠ none) :
    ((extract_public_type code).2 = some T →
        Event.wroteSource (T ++ ".java") ∈ (run_java_code code input_data env).2)
    ∧ ((extract_public_type code).2 = none →
        Event.wroteSource "Main.java" ∈ (run_java_code code input_data env).2
        ∧ Event.spawnedCompile 20 ∈ (run_java_code code input_data env).2) := by
  have hmem : Event.wroteSource (writtenFileName code) ∈ (run_java_code code input_data env).2
      ∧ Event.spawnedCompile 20 ∈ (run_java_code code input_data env).2 := by
    rw [run_java_code_eq code input_data env hc hj]
    rcases Nat.lt_or_ge 20 env.compileProc.duration with hgt | hle
    · rw [run_java_body_compile_timeout code input_data env hgt]
      exact ⟨by simp, by simp⟩
    · by_cases hrc : env.compileProc.exitCode = 0
      · rcases hcand : (resolveStep code env (extract_public_type code).2).1 with _ | cand
        · rw [run_java_body_no_candidate code input_data env hle hrc hcand]
          exact ⟨by simp, by simp⟩
        · by_cases hch : cand = ""
          · subst hch
            rw [run_java_body_empty_candidate code input_data env hle hrc hcand]
            exact ⟨by simp, by simp⟩
          · rw [run_java_body_with_candidate code input_data env cand hle hrc hcand hch]
            exact ⟨by simp, by simp⟩
      · rw [run_java_body_compile_fail code input_data env hle hrc]
        exact ⟨by simp, by simp⟩
  constructor
  · intro hT
    have he : writtenFileName code = T ++ ".java" := by rw [writtenFileName, hT]; rfl
    rw [← he]
    exact hmem.1
  · intro hN
    have he : writtenFileName code = "Main.java" := by rw [writtenFileName, hN]; rfl
    exact ⟨he ▸ hmem.1, hmem.2⟩

/-- Witness for C4: a public class `Foo` is written to `Foo.java`; a source
with no public type is written to `Main.java` and still compiled. -/
theorem source_file_naming_witness :
    Event.wroteSource ("Foo" ++ ".java") ∈ (run_java_code codeFoo "" envBase).2
    ∧ (Event.wroteSource "Main.java" ∈ (run_java_code codeNoPub "" envBase).2
       ∧ Event.spawnedCompile 20 ∈ (run_java_code codeNoPub "" envBase).2)
    ∧ (extract_public_type codeFoo).2 = some "Foo"
    ∧ (extract_public_type codeNoPub).2 = none :=
  ⟨(source_file_naming codeFoo "" envBase "Foo" (by decide) (by decide)).1 (by decide),
   (source_file_naming codeNoPub "" envBase "X" (by decide) (by decide)).2 (by decide),
   by decide, by decide⟩

/-- Claim C5: when introspection finds no candidate (or `javap` is absent)
and the analyzer found a public type `T` together with a textual main
signature, the pipeline launches `<package>.<T>` (or `T` without a package
declaration) directly, with no further verification step in between. -/
theorem fallback_entry_point_resolution (code input_data : String) (env : Env)
    (T : String)
    (hc : env.javacPath ≠ none) (hj : env.javaPath ≠ none)
    (hd : env.compileProc.duration ≤ 20) (hrc : env.compileProc.exitCode = 0)
    (hmains : env.javapPath = none ∨
              find_main_classes_with_javap env.classFiles env.javap = [])
    (hT : (extract_public_type code).2 = some T)
    (_hsig : code_mentions_main code = true) :
    Event.spawnedRun (qualify (extract_package_name code) T) 10 ∈
      (run_java_code code input_data env).2 := by
  have hcand : (resolveStep code env (extract_public_type code).2).1 =
      some (qualify (extract_package_name code) T) := by
    rw [resolveStep_fallback code env _ hmains, hT, resolveCandidate_public]
  have hne : qualify (extract_package_name code) T ≠ "" :=
    qualify_ne_empty (extract_name_ne_empty hT)
  rw [run_java_code_eq code input_data env hc hj,
      run_java_body_with_candidate code input_data env _ hd hrc hcand hne]
  rcases Nat.lt_or_ge 10
      ((env.runProc (qualify (extract_package_name code) T) (pyOr input_data "")).duration)
    with hgt | hle
  · rw [runStep_timeout _ _ _ hgt]
    simp [shutilRmtree]
  · rw [runStep_completed _ _ _ hle]
    simp [shutilRmtree]

/-- Witness for C5: a packaged source with `javap` unavailable launches
`com.demo.App`. -/
theorem fallback_entry_point_resolution_witness :
    Event.spawnedRun (qualify (extract_package_name codePkg) "App") 10 ∈
      (run_java_code codePkg "" envNoJavap).2 :=
  fallback_entry_point_resolution codePkg "" envNoJavap "App" (by decide) (by decide)
    (by decide) (by decide) (Or.inl rfl) (by decide) (by decide)

/-- Claim C6: the compile step runs under its own 20 second bound and the
execute step under its own 10 second bound; each step's timeout depends only
on that step's own duration; a program exceeding the execution bound is
killed (never left running) and reported as the 400 timeout error, an outcome
distinct by construction from the `ok: true` response that a completed
program — even one exiting nonzero — receives. -/
theorem per_step_timeouts (code input_data : String) (env : Env) (cand : String)
    (hc : env.javacPath ≠ none) (hj : env.javaPath ≠ none)
    (hcand : (resolveStep code env (extract_public_type code).2).1 = some cand)
    (hne : cand ≠ "") :
    (env.compileProc.duration > 20 →
        (run_java_code code input_data env).1 = .error ⟨400, timeoutMsg⟩
        ∧ Event.killedCompile ∈ (run_java_code code input_data env).2
        ∧ Event.spawnedRun cand 10 ∉ (run_java_code code input_data env).2)
    ∧ (env.compileProc.duration ≤ 20 → env.compileProc.exitCode = 0 →
       (env.runProc cand (pyOr input_data "")).duration > 10 →
        (run_java_code code input_data env).1 = .error ⟨400, timeoutMsg⟩
        ∧ Event.killedRun ∈ (run_java_code code input_data env).2
        ∧ Event.spawnedCompile 20 ∈ (run_java_code code input_data env).2
        ∧ Event.spawnedRun cand 10 ∈ (run_java_code code input_data env).2)
    ∧ (env.compileProc.duration ≤ 20 → env.compileProc.exitCode = 0 →
       (env.runProc cand (pyOr input_data "")).duration ≤ 10 →
        (run_java_code code input_data env).1 =
          .ok (.runResult (env.runProc cand (pyOr input_data "")).stdout
                 (env.runProc cand (pyOr input_data "")).stderr
                 (if (env.runProc cand (pyOr input_data "")).stdout = "" then
                    (env.runProc cand (pyOr input_data "")).stderr
                  else (env.runProc cand (pyOr input_data "")).stdout)
                 (env.runProc cand (pyOr input_data "")).exitCode cand))
    ∧ (∀ r : ApiResponse,
        (Except.error ⟨400, timeoutMsg⟩ : Except HTTPException ApiResponse) ≠ .ok r) := by
  refine ⟨?_, ?_, ?_, fun r h => by cases h⟩
  · intro hgt
    rw [run_java_code_eq code input_data env hc hj,
        run_java_body_compile_timeout code input_data env hgt]
    refine ⟨rfl, by simp [shutilRmtree], ?_⟩
    simp [shutilRmtree]
  · intro hle hrc hrgt
    rw [run_java_code_eq code input_data env hc hj,
        run_java_body_with_candidate code input_data env cand hle hrc hcand hne,
        runStep_timeout input_data env cand hrgt]
    exact ⟨rfl, by simp [shutilRmtree], by simp [shutilRmtree], by simp [shutilRmtree]⟩
  · intro hle hrc hrle
    rw [run_java_code_eq code input_data env hc hj,
        run_java_body_with_candidate code input_data env cand hle hrc hcand hne,
        runStep_completed input_data env cand hrle]

/-- Witness for C6: a program sleeping past the 10 second execution bound is
killed and reported as the 400 timeout. -/
theorem per_step_timeouts_witness :
    (run_java_code codeMain "" envRunSlow).1 = .error ⟨400, timeoutMsg⟩
    ∧ Event.killedRun ∈ (run_java_code codeMain "" envRunSlow).2
    ∧ Event.spawnedCompile 20 ∈ (run_java_code codeMain "" envRunSlow).2
    ∧ Event.spawnedRun "Main" 10 ∈ (run_java_code codeMain "" envRunSlow).2 :=
  (per_step_timeouts codeMain "" envRunSlow "Main" (by decide) (by decide)
    (by decide) (by decide)).2.1 (by decide) (by decide) (by decide)

/-- Claim C7: when compilation succeeds but no candidate exists (no public
type, introspection empty or unavailable), the pipeline raises the
no-entry-point `HTTPException` — delivered through the generic exception
handler — and no execution subprocess is ever started. -/
theorem no_entry_point_aborts_before_run (code input_data : String) (env : Env)
    (hc : env.javacPath ≠ none) (hj : env.javaPath ≠ none)
    (hd : env.compileProc.duration ≤ 20) (hrc : env.compileProc.exitCode = 0)
    (hmains : env.javapPath = none ∨
              find_main_classes_with_javap env.classFiles env.javap = [])
    (hpub : (extract_public_type code).2 = none) :
    (run_java_code code input_data env).1 =
      .error (handleExc (.httpExc ⟨400, noMainMsg⟩))
    ∧ (run_java_code code input_data env).2.all (fun e => !e.isSpawnedRun) = true := by
  have hcand : (resolveStep code env (extract_public_type code).2).1 = none := by
    rw [resolveStep_fallback code env _ hmains, hpub]
    rfl
  rw [run_java_code_eq code input_data env hc hj,
      run_java_body_no_candidate code input_data env hd hrc hcand]
  refine ⟨rfl, ?_⟩
  simp only [List.all_append, shutilRmtree]
  rw [resolveStep_events_not_run]
  rfl

/-- Witness for C7 at a concrete environment with a compiled non-public class
exposing no main method. -/
theorem no_entry_point_aborts_before_run_witness :
    (run_java_code codeNoPub "" envNoEntry).1 =
      .error (handleExc (.httpExc ⟨400, noMainMsg⟩))
    ∧ (run_java_code codeNoPub "" envNoEntry).2.all (fun e => !e.isSpawnedRun) = true :=
  no_entry_point_aborts_before_run codeNoPub "" envNoEntry (by decide) (by decide)
    (by decide) (by decide) (Or.inr (by decide)) (by decide)

/-- Environment with no compiler on PATH. -/
def envNoJavac : Env := { envBase with javacPath := none }

/-- Claim C8 (amended): the pipeline looks the three tool names up per
request; the absence of the compiler or the launcher is reported as the 500
configuration fault; the absence of the introspection tool alone is never
reported as that fault — the pipeline proceeds with fallback resolution. -/
theorem toolchain_fault_reporting (code input_data : String) (env : Env) :
    ((env.javacPath = none ∨ env.javaPath = none) →
        (run_java_code code input_data env).1 = .error ⟨500, jdkNotFoundMsg⟩)
    ∧ (env.javacPath ≠ none → env.javaPath ≠ none →
        (run_java_code code input_data env).1 ≠ .error ⟨500, jdkNotFoundMsg⟩) := by
  constructor
  · intro h
    unfold run_java_code
    rw [if_pos]
    · rcases h with h | h <;> simp [Option.isNone_iff_eq_none, h]
  · intro hc hj
    rw [run_java_code_fst code input_data env hc hj]
    rcases hbody : (run_java_body code input_data env).1 with e | resp
    · rcases run_java_body_error_cases code input_data env hbody with rfl | rfl
      · show Except.error (handleExc .timeoutExpired) ≠ _
        intro h
        injection h with h2
        exact absurd h2 (by decide)
      · show Except.error (handleExc (.httpExc ⟨400, noMainMsg⟩)) ≠ _
        intro h
        injection h with h2
        exact absurd h2 (by decide)
    · show Except.ok resp ≠ _
      intro h
      cases h

/-- Witness for the amended C8: a missing compiler is the 500 fault; with the
full toolchain the fault is never produced. -/
theorem toolchain_fault_reporting_witness :
    (run_java_code codeMain "" envNoJavac).1 = .error ⟨500, jdkNotFoundMsg⟩
    ∧ (run_java_code codeMain "" envBase).1 ≠ .error ⟨500, jdkNotFoundMsg⟩ :=
  ⟨(toolchain_fault_reporting codeMain "" envNoJavac).1 (Or.inl rfl),
   (toolchain_fault_reporting codeMain "" envBase).2 (by decide) (by decide)⟩

/-- Claim C8, as stated, is false: the absence of the introspection tool
(`javap`) is not reported to the caller as a configuration fault — the very
same request succeeds with an `ok: true` run response. -/
theorem javap_absence_not_a_fault :
    envNoJavap.javapPath = none
    ∧ (run_java_code codeMain "" envNoJavap).1 =
        .ok (.runResult "hi\n" "" "hi\n" 0 "Main") :=
  ⟨rfl, rfl⟩

/-- Claim C9: a request whose program completes execution gets the run dict:
`ok: true`, `stage: "run"`, the resolved main class, both captured streams
verbatim, `output` equal to stdout when nonempty else stderr, and the
program's exit code — with no constraint that the exit code be zero, so a
nonzero exit is delivered in the very same `ok: true` shape. -/
theorem run_response_shape (code input_data : String) (env : Env) (cand : String)
    (hc : env.javacPath ≠ none) (hj : env.javaPath ≠ none)
    (hd : env.compileProc.duration ≤ 20) (hrc : env.compileProc.exitCode = 0)
    (hcand : (resolveStep code env (extract_public_type code).2).1 = some cand)
    (hne : cand ≠ "")
    (hrd : (env.runProc cand (pyOr input_data "")).duration ≤ 10) :
    (run_java_code code input_data env).1 =
      .ok (.runResult (env.runProc cand (pyOr input_data "")).stdout
             (env.runProc cand (pyOr input_data "")).stderr
             (if (env.runProc cand (pyOr input_data "")).stdout = "" then
                (env.runProc cand (pyOr input_data "")).stderr
              else (env.runProc cand (pyOr input_data "")).stdout)
             (env.runProc cand (pyOr input_data "")).exitCode cand)
    ∧ (ApiResponse.runResult (env.runProc cand (pyOr input_data "")).stdout
         (env.runProc cand (pyOr input_data "")).stderr
         (if (env.runProc cand (pyOr input_data "")).stdout = "" then
            (env.runProc cand (pyOr input_data "")).stderr
          else (env.runProc cand (pyOr input_data "")).stdout)
         (env.runProc cand (pyOr input_data "")).exitCode cand).ok = true
    ∧ (ApiResponse.runResult (env.runProc cand (pyOr input_data "")).stdout
         (env.runProc cand (pyOr input_data "")).stderr
         (if (env.runProc cand (pyOr input_data "")).stdout = "" then
            (env.runProc cand (pyOr input_data "")).stderr
          else (env.runProc cand (pyOr input_data "")).stdout)
         (env.runProc cand (pyOr input_data "")).exitCode cand).stage = "run" := by
  rw [run_java_code_fst code input_data env hc hj,
      run_java_body_with_candidate code input_data env cand hd hrc hcand hne,
      runStep_completed input_data env cand hrd]
  exact ⟨rfl, rfl, rfl⟩

/-- Witness for C9: a program exiting 1 with empty stdout still yields the
`ok: true` run dict, whose `output` field carries the stderr diagnostics. -/
theorem run_response_shape_witness :
    (run_java_code codeMain "" envRunFails).1 =
      .ok (.runResult "" "Exception in thread main" "Exception in thread main" 1 "Main")
    ∧ (ApiResponse.runResult "" "Exception in thread main" "Exception in thread main"
         1 "Main").ok = true
    ∧ (ApiResponse.runResult "" "Exception in thread main" "Exception in thread main"
         1 "Main").stage = "run" :=
  run_response_shape codeMain "" envRunFails "Main" (by decide) (by decide)
    (by decide) (by decide) (by decide) (by decide) (by decide)

/-- Claim C10's entry-point clause is refuted by the code: the 400
no-entry-point `HTTPException` raised inside the `try` block is itself an
`Exception`, so the generic `except Exception` clause catches it and re-raises
it as a 500 whose detail embeds the original status — the caller sees 500,
not 400.  (The remaining clauses hold: compile or execute timeouts map to 400
with the fixed detail, and a missing compiler or launcher maps to 500.) -/
theorem no_entry_point_http_status_is_500 :
    (run_java_code codeNoPub "" envNoEntry).1 =
      .error ⟨500, "400: " ++ noMainMsg⟩
    ∧ resultStatus (run_java_code codeNoPub "" envNoEntry).1 = some 500
    ∧ resultStatus (run_java_code codeNoPub "" envNoEntry).1 ≠ some 400 :=
  ⟨rfl, rfl, by decide⟩

end JavaRunner
